import Mathlib

/-!
Shallow embedding of the playground run dispatcher of this repository
(`src/libs/agno/agno/app/playground/async_router.py`).

Each endpoint's decision logic is translated into an executable Lean function
over explicit inputs. External collaborators (the agno Agent, Team and
Workflow classes, whose implementations are not part of the given sources)
appear as explicit behaviour parameters; where the behaviour of such a
collaborator decides a property, the model follows the specification and its
doc comment starts with `Modelled from the spec`.
-/

/-- Session-id resolution in `create_agent_run` (async_router.py lines
287-291): an absent (`None`) or empty form field yields the freshly generated
uuid (passed here as `fresh`); any other value is used unchanged, with no
existence check. -/
def resolve_agent_session_id : Option String → String → String
  | some s, fresh => if s = "" then fresh else s
  | none, fresh => fresh

/-- Session-id resolution in `create_team_run` (lines 834-838), identical in
shape to the agent endpoint. -/
def resolve_team_session_id : Option String → String → String
  | some s, fresh => if s = "" then fresh else s
  | none, fresh => fresh

/-- Session id handed to a v2 workflow run: `body.session_id or str(uuid4())`
(lines 159 and 719); Python treats both `None` and the empty string as falsy,
so either yields the fresh uuid. -/
def workflow_v2_session_id : Option String → String → String
  | some s, fresh => if s = "" then fresh else s
  | none, fresh => fresh

/-- One item yielded on the wire by a streamer: either the serialization of a
run-response chunk (`run_response_chunk.to_json()`), or the serialization of
the `RunResponseErrorEvent` constructed in the streamer's exception handler,
carrying `str(e)`. -/
inductive StreamItem where
  | chunkJson (j : String)
  | errorJson (content : String)
deriving DecidableEq, Repr

/-- Modelled from the spec (§4.3): `Agent.arun` is repository code that is not
under `src/`. One execution attempt produces an ordered, finite sequence of
event chunks (recorded by their wire serializations) and either finishes
normally (`raises = none`) or raises an exception after the produced
prefix. -/
structure EntityExecution where
  chunks : List String
  raises : Option String
deriving DecidableEq, Repr

/-- Modelled from the spec (§4.3): in buffered mode the entity drains the same
event sequence internally and returns one `RunResponse` aggregating the
transcript — "logically equivalent to streaming mode with client-side
buffering, not a different execution path" — or raises the same exception. -/
def bufferedResult (e : EntityExecution) : Except String (List String) :=
  match e.raises with
  | some err => .error err
  | none => .ok e.chunks

/-- The dictionary form of the buffered run response
(`run_response.to_dict()`); only the aggregated transcript matters to the
claims. -/
structure ResponseDict where
  transcript : List String
deriving DecidableEq, Repr

/-- The request form fields of `create_agent_run` used by the claims. -/
structure AgentRunRequest where
  message : String
  session_id : Option String
  user_id : Option String

/-- Modelled from the spec: an agent's behaviour, as a function from the run
input the router passes (message, resolved session id, user id) to the one
underlying execution; both the streaming and the buffered branch of the
endpoint invoke it on the same input. -/
structure AgentBehavior where
  execute : String → String → Option String → EntityExecution

/-- The generator `chat_response_streamer` (lines 51-83): iterates the
streamed run, yielding each chunk's serialization; an exception raised
anywhere inside the `try` body ends the generator with one serialized
`RunResponseErrorEvent` carrying `str(e)` — the stream is never broken. -/
def chat_response_streamer (exec : EntityExecution) : List StreamItem :=
  exec.chunks.map StreamItem.chunkJson ++
    (match exec.raises with
     | some e => [StreamItem.errorJson e]
     | none => [])

/-- What `create_agent_run` hands the HTTP layer: a streaming body, the
buffered response dictionary, or an exception escaping the endpoint
uncaught. -/
inductive AgentRunResult where
  | streaming (items : List StreamItem)
  | buffered (resp : ResponseDict)
  | raised (err : String)
deriving DecidableEq, Repr

/-- The endpoint `create_agent_run` (lines 272-446), restricted to the
decision logic the claims are about: resolve the session id (lines 287-291),
then either wrap `chat_response_streamer` in a `StreamingResponse`
(`stream = True`, lines 418-431) or call `agent.arun(stream=False)` and
return its dictionary (lines 432-446). The buffered call is not wrapped in
any exception handler, so a raised exception escapes the endpoint. The
`monitoring` assignment on the registered handle (lines 293-296) is modelled
separately by `agent_after_create_run`; multipart file processing is outside
the claims' scope. -/
def create_agent_run (agent : AgentBehavior) (req : AgentRunRequest)
    (stream : Bool) (fresh : String) : AgentRunResult :=
  let sid := resolve_agent_session_id req.session_id fresh
  let exec := agent.execute req.message sid req.user_id
  if stream then
    .streaming (chat_response_streamer exec)
  else
    match bufferedResult exec with
    | .ok transcript => .buffered { transcript := transcript }
    | .error e => .raised e

/-- The payload strings of a delivered stream, in order: the transcript a
client reconstructs by concatenating what it received. -/
def streamed_payloads (items : List StreamItem) : List String :=
  items.map (fun i => match i with
    | .chunkJson j => j
    | .errorJson c => c)

/-- A concrete agent behaviour whose execution yields one chunk and then
raises. -/
def boomAgent : AgentBehavior :=
  ⟨fun _ _ _ => { chunks := ["c0"], raises := some "boom" }⟩

/-- A concrete agent behaviour whose execution yields two chunks and finishes
normally. -/
def okAgent : AgentBehavior :=
  ⟨fun _ _ _ => { chunks := ["d1", "d2"], raises := none }⟩

/-- One entry of the parsed `tools` JSON array of `continue_agent_run`;
`well_formed` records whether `ToolExecution.from_dict` accepts it. -/
structure ToolDict where
  tool_call_id : Option String
  well_formed : Bool
deriving DecidableEq, Repr

/-- The converted tool resolution handed to `agent.acontinue_run`. -/
structure ToolExecution where
  tool_call_id : Option String
deriving DecidableEq, Repr

/-- The raw `tools` form field of `continue_agent_run` after `json.loads`: an
empty string yields `None`, malformed JSON raises `JSONDecodeError`, and
otherwise a list of tool dictionaries is obtained. -/
inductive ToolsJsonField where
  | emptyStr
  | malformed
  | parsed (tools : List ToolDict)
deriving DecidableEq, Repr

/-- The observable outcome of `continue_agent_run`: an HTTP rejection, or the
call into `agent.acontinue_run` with the forwarded run id and converted
tools. -/
inductive ContinueRunResult where
  | httpError (status : Nat) (detail : String)
  | callContinueRun (run_id : String) (updated_tools : Option (List ToolExecution)) (stream : Bool)
deriving DecidableEq, Repr

/-- The endpoint `continue_agent_run` (lines 448-509): parse the `tools` JSON
(400 on bad JSON), resolve the agent (404 when absent), convert the tool
dictionaries to `ToolExecution` values when the parsed list is truthy (400 if
any is malformed), then call `agent.acontinue_run` with the run id from the
path and the converted tools — through `agent_acontinue_run_streamer` in
streaming mode (lines 86-113), directly otherwise. At no point is the
supplied set of resolutions compared against the paused run's pending
tool-call set: the pending set is not even an input to this endpoint. -/
def continue_agent_run (agent_found : Bool) (run_id : String)
    (tools : ToolsJsonField) (stream : Bool) : ContinueRunResult :=
  match tools with
  | .malformed => .httpError 400 "Invalid JSON in tools field"
  | .emptyStr =>
    if agent_found then .callContinueRun run_id none stream
    else .httpError 404 "Agent not found"
  | .parsed ts =>
    if agent_found then
      if ts.isEmpty then .callContinueRun run_id none stream
      else if ts.all (fun t => t.well_formed) then
        .callContinueRun run_id (some (ts.map (fun t => ⟨t.tool_call_id⟩))) stream
      else .httpError 400 "Invalid structure or content for tools"
    else .httpError 404 "Agent not found"

/-- A message dictionary inside a stored run, as read by the session-display
endpoints. -/
structure Msg where
  role : String
  from_history : Bool
deriving DecidableEq, Repr

/-- A stored run dictionary inside a session's `memory["runs"]`, restricted to
the fields the session-display endpoints read: whether the dict has a
`content` key, its `is_paused` flag, its `event` value, its
`team_session_id` tag, and its `messages` list. -/
structure StoredRun where
  has_content : Bool
  is_paused : Bool
  event : Option String
  team_session_id : Option String
  messages : List Msg
deriving DecidableEq, Repr

/-- The gate applied to the first stored run in `get_agent_session` (line 555)
and `get_team_session` (line 975): `"content" in first_run or
first_run.get("is_paused", False) or first_run.get("event") == "RunPaused"`. -/
def display_gate (r : StoredRun) : Bool :=
  r.has_content || r.is_paused || r.event == some "RunPaused"

/-- The inner loop of both session-display endpoints: the first message with
`role == "user"` and `from_history` false (`break` on first match). -/
def first_user_message (msgs : List Msg) : Option Msg :=
  msgs.find? (fun m => m.role == "user" && m.from_history == false)

/-- One entry of the rebuilt `runs` field: `{"message": first_user_message,
"response": run}`. The `run.pop("memory", None)` performed by the source only
strips a key from the returned copy and is not modelled. -/
structure RunEntry where
  message : Option Msg
  response : StoredRun
deriving DecidableEq, Repr

/-- Builds the display entry for one kept stored run. -/
def run_entry_of (r : StoredRun) : RunEntry :=
  { message := first_user_message r.messages, response := r }

/-- Result of the memory-processing part of a session-display endpoint:
either the rebuilt `runs` field (`none` meaning the stored dictionary is
returned untouched because memory or the runs key is absent, or the gate on
the first run fails), or the unhandled `IndexError` from `runs[0]`. -/
inductive SessionRunsResult where
  | ok (runs_field : Option (List RunEntry))
  | indexError
deriving DecidableEq, Repr

/-- The memory-processing logic of `get_agent_session` (lines 549-572). The
argument nests the two guards of the source: the outer `Option` is
`agent_session.memory is not None`, the inner is `memory.get("runs") is not
None`. With both present, `first_run = runs[0]` is evaluated with no
emptiness guard — an empty list raises `IndexError`. When the gate on the
first run passes, every stored run is mapped to its display entry (no
filtering at this endpoint). -/
def get_agent_session_runs (memory_runs : Option (Option (List StoredRun))) :
    SessionRunsResult :=
  match memory_runs with
  | none => .ok none
  | some none => .ok none
  | some (some []) => .indexError
  | some (some (first :: rest)) =>
    if display_gate first then
      .ok (some ((first :: rest).map run_entry_of))
    else .ok none

/-- The memory-processing logic of `get_team_session` (lines 969-996): same
shape as the agent endpoint, except that a stored run is skipped (`continue`)
when `run.get("team_session_id") is not None and run.get("team_session_id")
== session_id` — i.e. a run is kept exactly when its tag is absent or differs
from the parent session id. -/
def get_team_session_runs (session_id : String)
    (memory_runs : Option (Option (List StoredRun))) : SessionRunsResult :=
  match memory_runs with
  | none => .ok none
  | some none => .ok none
  | some (some []) => .indexError
  | some (some (first :: rest)) =>
    if display_gate first then
      .ok (some (((first :: rest).filter
        (fun r => !(r.team_session_id.isSome && r.team_session_id == some session_id))).map
          run_entry_of))
    else .ok none

/-- A stored run tagged with the parent team session id "S" that passes the
display gate. -/
def parentRun : StoredRun :=
  { has_content := true, is_paused := false, event := none,
    team_session_id := some "S", messages := [] }

/-- A stored run tagged with a different session id "X". -/
def foreignRun : StoredRun :=
  { has_content := false, is_paused := false, event := none,
    team_session_id := some "X", messages := [] }

/-- A registered v1 workflow handle, restricted to the fields the endpoints
touch; `run_return_type` stands for the `_run_return_type` attribute the v1
branch of `create_workflow_run` inspects. -/
structure WorkflowV1Handle where
  workflow_id : Option String
  session_id : Option String
  user_id : Option String
  session_name : Option String
  name : Option String
  run_return_type : String
deriving DecidableEq, Repr

/-- Modelled from the spec: `Workflow.deep_copy` (v1 workflow class, not under
`src/`) returns a fresh copy of the workflow with the fields of the `update`
dictionary overridden, leaving the original instance untouched. -/
def deep_copy (w : WorkflowV1Handle) (workflow_id session_id : Option String) :
    WorkflowV1Handle :=
  { w with workflow_id := workflow_id, session_id := session_id }

/-- The v1 branch of `create_workflow_run` (lines 675-687): deep-copies the
registered workflow with the path's workflow id and the request's session id,
then assigns `user_id` and clears `session_name` on the copy. Returns the
instance the run executes on together with the registered handle as the
endpoint leaves it — the v1 branch contains no assignment to the registered
`workflow`. -/
def create_workflow_run_v1 (workflow : WorkflowV1Handle) (workflow_id : String)
    (body_session_id body_user_id : Option String) :
    WorkflowV1Handle × WorkflowV1Handle :=
  let new_workflow_instance := deep_copy workflow (some workflow_id) body_session_id
  let new_workflow_instance :=
    { new_workflow_instance with user_id := body_user_id, session_name := none }
  (new_workflow_instance, workflow)

/-- A registered workflow as `create_workflow_run` sees it: either a v1
`Workflow` instance (the `isinstance(workflow, Workflow)` branch) or a v2
`WorkflowV2`. -/
inductive RegisteredWorkflow where
  | v1 (w : WorkflowV1Handle)
  | v2
deriving DecidableEq, Repr

/-- How `create_workflow_run` delivers the run to the caller. -/
inductive Delivery where
  | bufferedResponse
  | streamingResponse
deriving DecidableEq, Repr

/-- The delivery selection of `create_workflow_run` (lines 676-723): for a v1
instance, the branch inspects `_run_return_type` of the deep copy (copied
unchanged from the registered instance) — `"RunResponse"` yields one buffered
response, anything else a streaming response — and never reads the request's
`stream` flag; for a v2 instance, the branch follows `body.stream` and never
inspects the instance. -/
def workflow_delivery : RegisteredWorkflow → Bool → Delivery
  | .v1 w, _ =>
    if w.run_return_type = "RunResponse" then .bufferedResponse
    else .streamingResponse
  | .v2, stream => if stream then .streamingResponse else .bufferedResponse

/-- A concrete registered v1 workflow. -/
def workflowV1_0 : WorkflowV1Handle :=
  { workflow_id := some "wf1", session_id := some "OLD", user_id := none,
    session_name := some "old display name", name := some "blog-post-generator",
    run_return_type := "RunResponse" }

/-- A registered agent handle, restricted to the fields the run endpoint
touches plus representative configuration fields. -/
structure AgentHandle where
  agent_id : String
  name : Option String
  monitoring : Bool
deriving DecidableEq, Repr

/-- A registered team handle, restricted likewise. -/
structure TeamHandle where
  team_id : String
  name : Option String
  monitoring : Bool
deriving DecidableEq, Repr

/-- A registered workflow handle as the session endpoints see it. -/
structure WorkflowHandle where
  workflow_id : Option String
  name : Option String
  session_id : Option String
deriving DecidableEq, Repr

/-- The effect of `create_agent_run` on the registered agent handle (lines
293-296): `agent.monitoring` is assigned from the request's `monitor` form
field on the shared instance itself. -/
def agent_after_create_run (a : AgentHandle) (monitor : Bool) : AgentHandle :=
  if monitor then { a with monitoring := true } else { a with monitoring := false }

/-- The effect of `create_team_run` on the registered team handle (lines
840-843), identical in shape. -/
def team_after_create_run (t : TeamHandle) (monitor : Bool) : TeamHandle :=
  if monitor then { t with monitoring := true } else { t with monitoring := false }

/-- A session summary as returned by `storage.get_all_sessions`. -/
structure StoredSession where
  session_id : String
deriving DecidableEq, Repr

/-- Result of a rename endpoint. -/
inductive RenameOutcome where
  | ok
  | notFound
deriving DecidableEq, Repr

/-- The endpoint `rename_agent_session` (lines 574-589), after agent and
storage resolution: iterate the stored sessions and, on the first one whose
id matches, call `agent.rename_session` and return the success message;
otherwise 404. The boolean records whether a rename was performed. -/
def rename_agent_session (sessions : List StoredSession) (session_id : String) :
    RenameOutcome × Bool :=
  if sessions.any (fun s => s.session_id == session_id) then (.ok, true)
  else (.notFound, false)

/-- The endpoint `rename_team_session` (lines 998-1013), identical in shape to
the agent endpoint. -/
def rename_team_session (sessions : List StoredSession) (session_id : String) :
    RenameOutcome × Bool :=
  if sessions.any (fun s => s.session_id == session_id) then (.ok, true)
  else (.notFound, false)

/-- The endpoint `rename_workflow_session` (lines 786-793): after resolving
the workflow, with no session lookup of any kind it assigns
`workflow.session_id = session_id` on the registered handle, calls
`workflow.rename_session(body.name)` (external), and returns the success
message. -/
def rename_workflow_session (w : WorkflowHandle) (session_id : String)
    (_new_name : String) : RenameOutcome × WorkflowHandle :=
  (.ok, { w with session_id := some session_id })

/-- A concrete registered agent with monitoring enabled. -/
def agent0 : AgentHandle :=
  { agent_id := "a1", name := some "writer-agent", monitoring := true }

/-- A concrete registered workflow handle. -/
def workflow0 : WorkflowHandle :=
  { workflow_id := some "wf1", name := some "W", session_id := none }

/-- C1 counterexample: the claim states that in buffered mode an exception
raised by the entity is converted into a failure Response and never
propagated as a raised fault; at this concrete input the buffered agent run
re-raises the entity's exception to the caller (`create_agent_run` calls
`agent.arun(stream=False)` with no exception handler). -/
theorem C1_counterexample :
    create_agent_run boomAgent
        { message := "hi", session_id := some "S1", user_id := none } false "F"
      = AgentRunResult.raised "boom" := rfl

/-- C1 (amended): when the entity's execution raises, the streaming endpoint
delivers the produced chunk prefix followed by one terminal error event (no
broken stream, no raised fault), while the buffered endpoint propagates the
exception to the caller as a raised fault instead of a failure Response. -/
theorem C1_amended (agent : AgentBehavior) (req : AgentRunRequest)
    (fresh e : String)
    (h : (agent.execute req.message (resolve_agent_session_id req.session_id fresh)
        req.user_id).raises = some e) :
    create_agent_run agent req true fresh
      = AgentRunResult.streaming
          ((agent.execute req.message (resolve_agent_session_id req.session_id fresh)
              req.user_id).chunks.map StreamItem.chunkJson
            ++ [StreamItem.errorJson e])
    ∧ create_agent_run agent req false fresh = AgentRunResult.raised e := by
  constructor
  · simp [create_agent_run, chat_response_streamer, h]
  · simp [create_agent_run, bufferedResult, h]

/-- C1 witness: the amended theorem applied to a concrete raising agent. -/
theorem C1_amended_witness :
    (boomAgent.execute "hi" (resolve_agent_session_id (some "S1") "F") none).raises
        = some "boom"
    ∧ (create_agent_run boomAgent
          { message := "hi", session_id := some "S1", user_id := none } true "F"
        = AgentRunResult.streaming
            ((boomAgent.execute "hi" (resolve_agent_session_id (some "S1") "F")
                none).chunks.map StreamItem.chunkJson
              ++ [StreamItem.errorJson "boom"])
      ∧ create_agent_run boomAgent
          { message := "hi", session_id := some "S1", user_id := none } false "F"
        = AgentRunResult.raised "boom") :=
  ⟨rfl, C1_amended boomAgent
    { message := "hi", session_id := some "S1", user_id := none } "F" "boom" rfl⟩

/-- C2: for the same agent behaviour and the same request (hence the same
message, resolved session id and user id handed to the entity), a run that
raises no exception delivers, in streaming mode, an event sequence whose
concatenated payloads equal the transcript of the single response returned by
buffered mode. -/
theorem C2_mode_equivalence (agent : AgentBehavior) (req : AgentRunRequest)
    (fresh : String)
    (h : (agent.execute req.message (resolve_agent_session_id req.session_id fresh)
        req.user_id).raises = none) :
    ∃ (items : List StreamItem) (resp : ResponseDict),
      create_agent_run agent req true fresh = AgentRunResult.streaming items
      ∧ create_agent_run agent req false fresh = AgentRunResult.buffered resp
      ∧ streamed_payloads items = resp.transcript := by
  refine ⟨(agent.execute req.message (resolve_agent_session_id req.session_id fresh)
      req.user_id).chunks.map StreamItem.chunkJson,
    ⟨(agent.execute req.message (resolve_agent_session_id req.session_id fresh)
      req.user_id).chunks⟩, ?_, ?_, ?_⟩
  · simp [create_agent_run, chat_response_streamer, h]
  · simp [create_agent_run, bufferedResult, h]
  · simp only [streamed_payloads, List.map_map]
    exact List.map_id _

/-- C2 witness: mode equivalence at a concrete non-raising agent. -/
theorem C2_mode_equivalence_witness :
    (okAgent.execute "hi" (resolve_agent_session_id none "F") none).raises = none
    ∧ ∃ (items : List StreamItem) (resp : ResponseDict),
        create_agent_run okAgent
            { message := "hi", session_id := none, user_id := none } true "F"
          = AgentRunResult.streaming items
        ∧ create_agent_run okAgent
            { message := "hi", session_id := none, user_id := none } false "F"
          = AgentRunResult.buffered resp
        ∧ streamed_payloads items = resp.transcript :=
  ⟨rfl, C2_mode_equivalence okAgent
    { message := "hi", session_id := none, user_id := none } "F" rfl⟩

/-- C3: evaluation of `continue_agent_run` at the failing input — a paused run
`r1` whose pending set is `{t1}`, resumed with a resolution naming only the
unknown id `t2`. The endpoint forwards the resolutions to
`agent.acontinue_run` unchanged; no `invalid-resume` rejection exists in this
code path, because the pending tool-call set is never consulted. -/
theorem C3_forwards_unknown_resolutions :
    continue_agent_run true "r1" (ToolsJsonField.parsed [⟨some "t2", true⟩]) true
      = ContinueRunResult.callContinueRun "r1" (some [⟨some "t2"⟩]) true := rfl

/-- C4 counterexample: with parent team session id "S", the stored run tagged
`team_session_id = "S"` (i.e. belonging to the parent session) is excluded
from the rebuilt runs list, while the run tagged with the different id "X" is
included — the exact inverse of the claimed filter. -/
theorem C4_counterexample :
    get_team_session_runs "S" (some (some [parentRun, foreignRun]))
      = SessionRunsResult.ok (some [run_entry_of foreignRun])
    ∧ parentRun.team_session_id = some "S"
    ∧ foreignRun.team_session_id = some "X" := ⟨rfl, rfl, rfl⟩

/-- C4 (amended): when the display gate on the first stored run passes, the
rebuilt runs list consists, in stored order, of the display entries of
exactly those runs whose `team_session_id` tag is NOT equal to the parent
team session identifier (runs with an absent tag are included). -/
theorem C4_amended (session_id : String) (first : StoredRun)
    (rest : List StoredRun) (h : display_gate first = true) :
    get_team_session_runs session_id (some (some (first :: rest)))
      = SessionRunsResult.ok (some
          (((first :: rest).filter
            (fun r => !(r.team_session_id == some session_id))).map run_entry_of)) := by
  have hfilter : (first :: rest).filter
        (fun r => !(r.team_session_id.isSome && r.team_session_id == some session_id))
      = (first :: rest).filter (fun r => !(r.team_session_id == some session_id)) :=
    List.filter_congr (fun r _ => by cases r.team_session_id <;> rfl)
  have hmain : get_team_session_runs session_id (some (some (first :: rest)))
      = SessionRunsResult.ok (some
          (((first :: rest).filter
            (fun r => !(r.team_session_id.isSome && r.team_session_id == some session_id))).map
              run_entry_of)) := by
    simp [get_team_session_runs, h]
  rw [hmain, hfilter]

/-- C4 witness: the amended filter at the concrete two-run store. -/
theorem C4_amended_witness :
    display_gate parentRun = true
    ∧ get_team_session_runs "S" (some (some (parentRun :: [foreignRun])))
        = SessionRunsResult.ok (some
            ((((parentRun :: [foreignRun])).filter
              (fun r => !(r.team_session_id == some "S"))).map run_entry_of)) :=
  ⟨rfl, C4_amended "S" parentRun [foreignRun] rfl⟩

/-- C5 counterexample: the claim states that an absent session identifier
always causes a fresh one to be generated, uniformly across the agent, team
and workflow run endpoints; for a v1 workflow run the dispatcher passes the
absent identifier unchanged into the deep-copied instance (its session id
stays `none`), while the agent endpoint, by contrast, does substitute the
fresh uuid. -/
theorem C5_counterexample :
    (create_workflow_run_v1 workflowV1_0 "wf1" none none).1.session_id = none
    ∧ resolve_agent_session_id none "fresh-uuid" = "fresh-uuid" := ⟨rfl, rfl⟩

/-- C5 (amended): the agent and team endpoints and the v2 workflow path

generate a fresh identifier for an absent or empty session id and pass any
non-empty id through unchanged with no existence check; the v1 workflow path
passes the requested session id — including an absent one — unchanged into
the deep-copied instance, generating nothing at this layer. -/
theorem C5_amended :
    (∀ fresh : String,
        resolve_agent_session_id none fresh = fresh
        ∧ resolve_agent_session_id (some "") fresh = fresh
        ∧ resolve_team_session_id none fresh = fresh
        ∧ resolve_team_session_id (some "") fresh = fresh
        ∧ workflow_v2_session_id none fresh = fresh
        ∧ workflow_v2_session_id (some "") fresh = fresh)
    ∧ (∀ (s fresh : String), s ≠ "" →
        resolve_agent_session_id (some s) fresh = s
        ∧ resolve_team_session_id (some s) fresh = s
        ∧ workflow_v2_session_id (some s) fresh = s)
    ∧ (∀ (w : WorkflowV1Handle) (workflow_id : String) (sid uid : Option String),
        (create_workflow_run_v1 w workflow_id sid uid).1.session_id = sid) := by
  refine ⟨fun fresh => ⟨rfl, ?_, rfl, ?_, rfl, ?_⟩,
    fun s fresh hs => ⟨?_, ?_, ?_⟩, fun w wid sid uid => rfl⟩
  · simp [resolve_agent_session_id]
  · simp [resolve_team_session_id]
  · simp [workflow_v2_session_id]
  · simp [resolve_agent_session_id, hs]
  · simp [resolve_team_session_id, hs]
  · simp [workflow_v2_session_id, hs]

/-- C5 witness: a non-empty session id passes through all three resolvers. -/
theorem C5_amended_witness :
    ("S1" : String) ≠ ""
    ∧ (resolve_agent_session_id (some "S1") "F" = "S1"
       ∧ resolve_team_session_id (some "S1") "F" = "S1"
       ∧ workflow_v2_session_id (some "S1") "F" = "S1") :=
  ⟨by decide, C5_amended.2.1 "S1" "F" (by decide)⟩

/-- C6 counterexample: two run requests on the same v2 workflow instance,
differing only in the caller-supplied stream flag, receive different
deliveries — so for v2 requests the delivery is not selected from a detected
per-instance return discipline, refuting the claim's universal "for every
workflow run request". -/
theorem C6_counterexample :
    workflow_delivery RegisteredWorkflow.v2 false = Delivery.bufferedResponse
    ∧ workflow_delivery RegisteredWorkflow.v2 true = Delivery.streamingResponse
    ∧ workflow_delivery RegisteredWorkflow.v2 false
        ≠ workflow_delivery RegisteredWorkflow.v2 true := by
  refine ⟨rfl, rfl, ?_⟩
  decide

/-- C6 (amended): for v1 workflow instances the engine selects delivery from
the detected `_run_return_type` alone ("RunResponse" yields one buffered
response, anything else a streaming response), ignoring the caller's stream
flag; for v2 instances delivery follows the caller-supplied flag. -/
theorem C6_amended :
    (∀ (w : WorkflowV1Handle) (stream : Bool),
        workflow_delivery (RegisteredWorkflow.v1 w) stream
          = (if w.run_return_type = "RunResponse" then Delivery.bufferedResponse
             else Delivery.streamingResponse))
    ∧ (∀ (w : WorkflowV1Handle) (s1 s2 : Bool),
        workflow_delivery (RegisteredWorkflow.v1 w) s1
          = workflow_delivery (RegisteredWorkflow.v1 w) s2)
    ∧ (∀ stream : Bool,
        workflow_delivery RegisteredWorkflow.v2 stream
          = (if stream then Delivery.streamingResponse else Delivery.bufferedResponse)) :=
  ⟨fun _ _ => rfl, fun _ _ _ => rfl, fun _ => rfl⟩

/-- C7 counterexample: handling an agent run request with `monitor = False`
mutates the registered handle of an agent configured with monitoring enabled
— the handle after dispatch differs from the handle before, refuting the
claim that the engine never mutates the shared instance's fields. -/
theorem C7_counterexample :
    agent_after_create_run agent0 false ≠ agent0 := by decide

/-- C7 (amended): `create_agent_run` and `create_team_run` overwrite the
registered handle's `monitoring` flag with the request's monitor value,
leaving the other configuration fields unchanged; `rename_workflow_session`
overwrites the registered workflow's `session_id`, leaving its other fields
unchanged. -/
theorem C7_amended :
    (∀ (a : AgentHandle) (monitor : Bool),
        (agent_after_create_run a monitor).monitoring = monitor
        ∧ (agent_after_create_run a monitor).agent_id = a.agent_id
        ∧ (agent_after_create_run a monitor).name = a.name)
    ∧ (∀ (t : TeamHandle) (monitor : Bool),
        (team_after_create_run t monitor).monitoring = monitor
        ∧ (team_after_create_run t monitor).team_id = t.team_id
        ∧ (team_after_create_run t monitor).name = t.name)
    ∧ (∀ (w : WorkflowHandle) (session_id new_name : String),
        ((rename_workflow_session w session_id new_name).2).session_id = some session_id
        ∧ ((rename_workflow_session w session_id new_name).2).workflow_id = w.workflow_id
        ∧ ((rename_workflow_session w session_id new_name).2).name = w.name) := by
  refine ⟨fun a monitor => ?_, fun t monitor => ?_, fun w sid nn => ⟨rfl, rfl, rfl⟩⟩
  · cases monitor <;> exact ⟨rfl, rfl, rfl⟩
  · cases monitor <;> exact ⟨rfl, rfl, rfl⟩

/-- C8 counterexample: renaming a workflow session whose identifier exists in
no store returns the success outcome and performs the rename (mutating the
registered handle's session id), instead of the claimed not-found rejection;
the agent endpoint, by contrast, does return not-found on an empty store. -/
theorem C8_counterexample :
    rename_workflow_session workflow0 "no-such-session" "new name"
      = (RenameOutcome.ok, { workflow0 with session_id := some "no-such-session" })
    ∧ rename_agent_session [] "no-such-session" = (RenameOutcome.notFound, false) :=
  ⟨rfl, rfl⟩

/-- C8 (amended): for the agent and team endpoints, the rename returns ok and
performs a rename exactly when some stored session has the requested id, and
returns not-found with no rename otherwise; the workflow rename endpoint
performs no existence check and always returns ok. -/
theorem C8_amended :
    (∀ (sessions : List StoredSession) (session_id : String),
        ((rename_agent_session sessions session_id).1 = RenameOutcome.ok
            ↔ sessions.any (fun s => s.session_id == session_id) = true)
        ∧ (rename_agent_session sessions session_id).2
            = sessions.any (fun s => s.session_id == session_id))
    ∧ (∀ (sessions : List StoredSession) (session_id : String),
        ((rename_team_session sessions session_id).1 = RenameOutcome.ok
            ↔ sessions.any (fun s => s.session_id == session_id) = true)
        ∧ (rename_team_session sessions session_id).2
            = sessions.any (fun s => s.session_id == session_id))
    ∧ (∀ (w : WorkflowHandle) (session_id new_name : String),
        (rename_workflow_session w session_id new_name).1 = RenameOutcome.ok) := by
  refine ⟨fun sessions sid => ?_, fun sessions sid => ?_, fun w sid nn => rfl⟩
  · cases h : sessions.any (fun s => s.session_id == sid) <;>
      simp [rename_agent_session, h]
  · cases h : sessions.any (fun s => s.session_id == sid) <;>
      simp [rename_team_session, h]

/-- C9: a stored session whose memory maps "runs" to an empty list makes
`get_agent_session` evaluate `runs[0]` with no emptiness guard, raising an
unhandled `IndexError` instead of returning the session record; the same
unguarded access exists in `get_team_session`. -/
theorem C9_empty_runs_index_error :
    get_agent_session_runs (some (some [])) = SessionRunsResult.indexError
    ∧ ∀ session_id : String,
        get_team_session_runs session_id (some (some []))
          = SessionRunsResult.indexError :=
  ⟨rfl, fun _ => rfl⟩

/-- C10: the v1 branch of `create_workflow_run` executes the run on a deep
copy carrying the requested workflow id, the request's session id and user
id, and a cleared session name, while preserving the rest of the registered
configuration on the copy; the registered v1 workflow handle itself is left
unchanged by the endpoint. -/
theorem C10_v1_deep_copy_frame :
    ∀ (w : WorkflowV1Handle) (workflow_id : String) (sid uid : Option String),
      (create_workflow_run_v1 w workflow_id sid uid).1.workflow_id = some workflow_id
      ∧ (create_workflow_run_v1 w workflow_id sid uid).1.session_id = sid
      ∧ (create_workflow_run_v1 w workflow_id sid uid).1.user_id = uid
      ∧ (create_workflow_run_v1 w workflow_id sid uid).1.session_name = none
      ∧ (create_workflow_run_v1 w workflow_id sid uid).1.name = w.name
      ∧ (create_workflow_run_v1 w workflow_id sid uid).1.run_return_type
          = w.run_return_type
      ∧ (create_workflow_run_v1 w workflow_id sid uid).2 = w :=
  fun _ _ _ _ => ⟨rfl, rfl, rfl, rfl, rfl, rfl, rfl⟩
